import Mathlib

/-!
Verification of the vocabulary exam synthesis engine of this repository
(`src/main.py`) against its natural-language specification.

The Python source is shallowly embedded:

* Python `dict` word records become the structure `WordRecord`;
* Python list slicing `l[a:b]` becomes `(l.take b).drop a` (both clamp);
* `datetime.now()` is modelled as an explicit string argument holding the
  already-formatted timestamp — each textual occurrence of
  `datetime.now().strftime(...)` in the source becomes one such argument;
* `str.lower()` is modelled by mapping `Char.toLower` over the characters;
* fallible external calls (spreadsheet reads/writes) are modelled as
  `Except String` arguments: `Except.error e` is the branch where the call
  raised and the surrounding `try/except` caught `e`;
* the `while` loop of the Slack chunk splitter is modelled with explicit
  fuel, since the source loop's termination is exactly what is at issue.
-/

/-- One vocabulary entry, as the dicts `{'word': ..., 'meaning': ..., 'synonyms': [...]}`
built in `get_random_words` (`src/main.py`). -/
structure WordRecord where
  word : String
  meaning : String
  synonyms : List String
deriving DecidableEq, Repr

/-- The five word lists produced by the allocation block of `generate_exam`
(`src/main.py` lines 936-946). -/
structure Allocation where
  section1 : List WordRecord
  section2 : List WordRecord
  composition : List WordRecord
  context : List WordRecord
  synonymFiltered : List WordRecord
deriving DecidableEq, Repr

/-- The quota-allocation block of `VocabBot.generate_exam` (`src/main.py` 936-946):
`section1_words = words[:s1]`;
`section2_words = words[s1:total] if total >= 30 else words[s1:]`, extended by
`words[:s2 - len(section2_words)]` when short and truncated to `s2`;
`composition = pool[:s3]`, `context = pool[s3:s3+s4]`,
`synonym_words = [w for w in pool if w['synonyms']][:s5]`
where `pool = section1_words + section2_words`. -/
def allocate (words : List WordRecord) (total s1 s2 s3 s4 s5 : Nat) : Allocation :=
  let section1_words := words.take s1
  let tail_words := if 30 ≤ total then (words.take total).drop s1 else words.drop s1
  let extended := if tail_words.length < s2
    then tail_words ++ words.take (s2 - tail_words.length)
    else tail_words
  let section2_words := extended.take s2
  let pool := section1_words ++ section2_words
  { section1 := section1_words
    section2 := section2_words
    composition := pool.take s3
    context := (pool.drop s3).take s4
    synonymFiltered := (pool.filter (fun w => !w.synonyms.isEmpty)).take s5 }

/-- Numbering helper: Python `enumerate(l, 1)`. -/
def enumerate1 {α : Type} (l : List α) : List (Nat × α) :=
  l.enum.map (fun p => (p.1 + 1, p.2))

/-- Accumulating `content += item` loop over `enumerate(l, 1)`, as in each
rendering `for` loop of `create_exam_content` / `create_answer_content`. -/
def render_items {α : Type} (item : Nat → α → String) (l : List α) : String :=
  (enumerate1 l).foldl (fun acc p => acc ++ item p.1 p.2) ""

/-- The five fixed situational-context strings of `create_exam_content` /
`create_answer_content` (`src/main.py`). -/
def exam_contexts : List String :=
  ["비즈니스 회의에서", "친구와의 일상 대화에서", "공식적인 이메일에서",
   "카페에서 주문할 때", "여행 중 호텔에서"]

/-- Title-block question total of the exam document
(`{len(section1_words) + len(section2_words) + 5 + 5 + len(synonym_words)}문제`). -/
def ex_title_count (s1w s2w syn : List WordRecord) : Nat :=
  s1w.length + s2w.length + 5 + 5 + syn.length

/-- Exam document text before the interpolated timestamp. -/
def exam_head : String := "\n# 영어 실력 향상 시험지\n**생성일시**: "

/-- Label between the timestamp and the interpolated total question count. -/
def exam_total_label : String := "\n**총 문항수**: "

/-- Section 1 item of the exam document. -/
def exam_item1 (i : Nat) (w : WordRecord) : String :=
  toString i ++ ". " ++ w.word ++ "\n   답: ________________________\n\n"

/-- Section 2 item of the exam document. -/
def exam_item2 (i : Nat) (w : WordRecord) : String :=
  toString i ++ ". " ++ w.meaning ++ "\n   답: ________________________\n\n"

/-- Section 3 item of the exam document. -/
def exam_item3 (i : Nat) (w : WordRecord) : String :=
  toString i ++ ". 제시어: **" ++ w.word ++
    "**\n   문장: ________________________________________________\n\n"

/-- Section 4 item of the exam document (word zipped with a context string). -/
def exam_item4 (i : Nat) (p : WordRecord × String) : String :=
  toString i ++ ". 상황: " ++ p.2 ++ "\n   단어: **" ++ p.1.word ++
    "**\n   표현: ________________________________________________\n\n"

/-- Section 5 item of the exam document. -/
def exam_item5 (i : Nat) (w : WordRecord) : String :=
  toString i ++ ". **" ++ w.word ++
    "**의 동의어 (최소 2개):\n   답: ________________________________________________\n\n"

/-- Section 5 block of the exam document: rendered only when `synonym_words`
is non-empty (`if synonym_words:` in `create_exam_content`). -/
def exam_section5 (syn : List WordRecord) : String :=
  if syn.isEmpty then ""
  else
    "\n---\n\n## Section 5: 동의어 선택 (" ++ toString syn.length ++
      "문제)\n*다음 단어의 동의어를 모두 쓰시오.*\n\n" ++ render_items exam_item5 syn

/-- Exam document text from the interpolated total question count onwards. -/
def exam_sections (s1w s2w cw xw syn : List WordRecord) : String :=
  "문제\n\n---\n\n## Section 1: 영→한 번역 (" ++ toString s1w.length ++
    "문제)\n*다음 영어 단어/표현의 한글 뜻을 쓰시오.*\n\n" ++
  render_items exam_item1 s1w ++
  "\n---\n\n## Section 2: 한→영 번역 (" ++ toString s2w.length ++
    "문제)\n*다음 한글 뜻에 해당하는 영어 단어/표현을 쓰시오.*\n\n" ++
  render_items exam_item2 s2w ++
  "\n---\n\n## Section 3: 영어 작문 (5문제)\n*제시된 단어를 활용하여 영어 문장을 만드시오.*\n\n" ++
  render_items exam_item3 (cw.take 5) ++
  "\n---\n\n## Section 4: 문맥 번역 (5문제)\n*다음 상황에서 제시된 단어를 사용하여 적절한 영어 표현을 쓰시오.*\n\n" ++
  render_items exam_item4 ((xw.take 5).zip exam_contexts) ++
  exam_section5 syn

/-- Exam document text after the interpolated timestamp. -/
def exam_tail (s1w s2w cw xw syn : List WordRecord) : String :=
  exam_total_label ++ (toString (ex_title_count s1w s2w syn) ++ exam_sections s1w s2w cw xw syn)

/-- Model of `VocabBot.create_exam_content` (`src/main.py` 976-1052); `now` models the
formatted `datetime.now()` value read inside this call. -/
def create_exam_content (now : String) (s1w s2w cw xw syn : List WordRecord) : String :=
  exam_head ++ (now ++ exam_tail s1w s2w cw xw syn)

/-- Answer-key document text before the interpolated timestamp. -/
def ans_head : String := "\n# 영어 실력 향상 시험지 - 정답\n**생성일시**: "

/-- Section 1 item of the answer key. -/
def ans_item1 (i : Nat) (w : WordRecord) : String :=
  toString i ++ ". " ++ w.word ++ " → **" ++ w.meaning ++ "**\n"

/-- Section 2 item of the answer key. -/
def ans_item2 (i : Nat) (w : WordRecord) : String :=
  toString i ++ ". " ++ w.meaning ++ " → **" ++ w.word ++ "**\n"

/-- Section 3 item of the answer key. -/
def ans_item3 (i : Nat) (w : WordRecord) : String :=
  toString i ++ ". " ++ w.word ++ ": (예시) This example shows how to use " ++
    w.word ++ " correctly.\n"

/-- Section 4 item of the answer key. -/
def ans_item4 (i : Nat) (p : WordRecord × String) : String :=
  toString i ++ ". " ++ p.2 ++ " - " ++ p.1.word ++ ": (상황에 맞는 표현 사용)\n"

/-- Section 5 item of the answer key (`', '.join(word['synonyms'])`). -/
def ans_item5 (i : Nat) (w : WordRecord) : String :=
  toString i ++ ". " ++ w.word ++ ": **" ++ String.intercalate ", " w.synonyms ++ "**\n"

/-- Section 5 block of the answer key, rendered only when non-empty. -/
def ans_section5 (syn : List WordRecord) : String :=
  if syn.isEmpty then ""
  else "\n---\n\n## Section 5: 동의어 정답\n\n" ++ render_items ans_item5 syn

/-- Answer-key document text after the interpolated timestamp. -/
def ans_tail (s1w s2w cw xw syn : List WordRecord) : String :=
  "\n\n---\n\n## Section 1: 영→한 번역 정답\n\n" ++
  render_items ans_item1 s1w ++
  "\n---\n\n## Section 2: 한→영 번역 정답\n\n" ++
  render_items ans_item2 s2w ++
  "\n---\n\n## Section 3: 영어 작문 예시 답안\n\n" ++
  render_items ans_item3 (cw.take 5) ++
  "\n---\n\n## Section 4: 문맥 번역 예시 답안\n\n" ++
  render_items ans_item4 ((xw.take 5).zip exam_contexts) ++
  ans_section5 syn

/-- Model of `VocabBot.create_answer_content` (`src/main.py` 1054-1125); `now` models
the formatted `datetime.now()` value read inside this call — a second,
separate clock read from the one in `create_exam_content`. -/
def create_answer_content (now : String) (s1w s2w cw xw syn : List WordRecord) : String :=
  ans_head ++ (now ++ ans_tail s1w s2w cw xw syn)

/-- The error message of `generate_exam` for an undersized sample
(`'저장된 단어가 부족합니다. (현재: {len(words)}개, 최소: 10개 필요)'`). -/
def insufficient_msg (available required : Nat) : String :=
  "저장된 단어가 부족합니다. (현재: " ++ toString available ++ "개, 최소: " ++
    toString required ++ "개 필요)"

/-- The success payload dict returned by `generate_exam`. -/
structure ExamOutput where
  examContent : String
  answerContent : String
  section1_count : Nat
  section2_count : Nat
  section3_count : Nat
  section4_count : Nat
  section5_count : Nat
  total_questions : Nat
deriving DecidableEq, Repr

/-- Result dict of `generate_exam`: `{'success': True, ...}` or
`{'success': False, 'error': msg}`. -/
inductive GenResult where
  | ok (out : ExamOutput)
  | err (msg : String)
deriving DecidableEq, Repr

/-- Model of `VocabBot.generate_exam` (`src/main.py` 926-975) applied to an already
drawn sample `words`; `now1`/`now2` model the two separate `datetime.now()`
reads made by `create_exam_content` and `create_answer_content`. -/
def generate_exam (now1 now2 : String) (words : List WordRecord)
    (total s1 s2 s3 s4 s5 : Nat) : GenResult :=
  if words.length < 10 then .err (insufficient_msg words.length 10)
  else
    let a := allocate words total s1 s2 s3 s4 s5
    .ok
      { examContent := create_exam_content now1 a.section1 a.section2 a.composition
          a.context a.synonymFiltered
        answerContent := create_answer_content now2 a.section1 a.section2 a.composition
          a.context a.synonymFiltered
        section1_count := s1
        section2_count := s2
        section3_count := s3
        section4_count := s4
        section5_count := a.synonymFiltered.length
        total_questions := s1 + s2 + s3 + s4 + a.synonymFiltered.length }

/-- A deterministic 10-or-so word sample used to instantiate theorems with
hypotheses at concrete inputs. -/
def sampleWords (n : Nat) : List WordRecord :=
  (List.range n).map (fun i => { word := toString i, meaning := toString i, synonyms := [] })

/-- Like `sampleWords` but every record carries a synonym. -/
def sampleWordsSyn (n : Nat) : List WordRecord :=
  (List.range n).map (fun i => { word := toString i, meaning := toString i, synonyms := ["s"] })

/-- The concrete payload produced by `generate_exam` on the ten-word sample
with the default targets. -/
def c4Out : ExamOutput :=
  let a := allocate (sampleWords 10) 30 15 15 5 5 10
  { examContent := create_exam_content "t" a.section1 a.section2 a.composition
      a.context a.synonymFiltered
    answerContent := create_answer_content "t" a.section1 a.section2 a.composition
      a.context a.synonymFiltered
    section1_count := 15
    section2_count := 15
    section3_count := 5
    section4_count := 5
    section5_count := a.synonymFiltered.length
    total_questions := 15 + 15 + 5 + 5 + a.synonymFiltered.length }

/-- Python `str.lower()`, modelled as character-wise lowercasing. -/
def lower_str (s : String) : String := String.mk (s.data.map Char.toLower)

/-- Model of `VocabBot.check_duplicate` (`src/main.py` 1162-1176). `col_values` models
`self.worksheet.col_values(1)`: `Except.error e` is the branch where the
spreadsheet call raised and the `except` clause returned `False`. -/
def check_duplicate (word : String) (col_values : Except String (List String)) : Bool :=
  match col_values with
  | .error _ => false
  | .ok cells => cells.any (fun c => lower_str c == lower_str word)

/-- Python `', '.join(synonyms) if synonyms else ''` from `add_to_sheet`. -/
def join_synonyms (synonyms : List String) : String :=
  if synonyms.isEmpty then "" else String.intercalate ", " synonyms

/-- The provider-response dict consumed by `add_to_sheet` and
`format_vocab_response` (`word`, `korean_meaning`, `synonyms`, `example`,
`korean_example`). -/
structure WordInfo where
  word : String
  korean_meaning : String
  synonyms : List String
  «example» : String
  korean_example : String
deriving DecidableEq, Repr

/-- Model of `VocabBot.add_to_sheet` (`src/main.py` 1178-1205). `rows` is the backing
sheet's word rows; `col_values` models the `col_values(1)` read inside
`check_duplicate`; `insert_result` models the `insert_row` call, whose
`Except.error` branch is caught by the `except` clause and returns `False`
with the sheet unchanged. Returns the new rows and the boolean result. -/
def add_to_sheet (info : WordInfo) (col_values : Except String (List String))
    (rows : List (String × String × String)) (insert_result : Except String Unit) :
    List (String × String × String) × Bool :=
  if check_duplicate info.word col_values then (rows, false)
  else
    match insert_result with
    | .ok _ => (rows ++ [(info.word, info.korean_meaning, join_synonyms info.synonyms)], true)
    | .error _ => (rows, false)

/-- Python `"=" * 30`. -/
def sep_line : String := String.mk (List.replicate 30 '=')

/-- Trailing message of `format_vocab_response` when `save_success` is false. -/
def already_saved_msg : String := "ℹ️ *이미 저장된 단어입니다.*"

/-- Trailing message of `format_vocab_response` when `save_success` is true. -/
def saved_ok_msg : String := "✅ *Google Sheets에 저장 완료!*"

/-- Model of `VocabBot.format_vocab_response` (`src/main.py` 1206-1232). -/
def format_vocab_response (info : WordInfo) (save_success : Bool) : String :=
  let r1 := "📚 *" ++ info.word ++ "*\n" ++ ("🇰🇷 *뜻:* " ++ info.korean_meaning ++ "\n")
  let r2 := if !info.synonyms.isEmpty
    then r1 ++ ("🔄 *동의어:* " ++ String.intercalate ", " info.synonyms ++ "\n")
    else r1
  let r3 := if info.«example» ≠ ""
    then
      (let r := r2 ++ ("\n💬 *예문:*\n> " ++ info.«example» ++ "\n")
       if info.korean_example ≠ "" then r ++ ("> _" ++ info.korean_example ++ "_\n") else r)
    else r2
  let r4 := r3 ++ ("\n" ++ sep_line ++ "\n")
  if save_success then r4 ++ saved_ok_msg else r4 ++ already_saved_msg

/-- Row-to-record conversion of `get_random_words`: rows with at least three
cells become `{'word': row[0], 'meaning': row[1], 'synonyms': row[2].split(', ') if row[2] else []}`. -/
def row_to_word : List String → WordRecord
  | w :: m :: s :: _ => { word := w, meaning := m, synonyms := if s = "" then [] else s.splitOn ", " }
  | _ => { word := "", meaning := "", synonyms := [] }

/-- The `if len(row) >= 3` guard plus conversion of `get_random_words`:
short rows are skipped, rows with three or more cells become records. -/
def row_to_word? : List String → Option WordRecord
  | w :: m :: s :: rest => some (row_to_word (w :: m :: s :: rest))
  | _ => none

/-- Specification of `random.sample(population, k)` for `k ≤ len(population)`:
the result has exactly `k` elements and is a permutation of a sublist of the
population (distinct positions, arbitrary order). -/
def SamplerSpec (sam : List (List String) → Nat → List (List String)) : Prop :=
  ∀ l n, n ≤ l.length → (sam l n).length = n ∧ List.Subperm (sam l n) l

/-- Model of `VocabBot.get_random_words` (`src/main.py` 898-924) applied to the rows
below the header (`get_all_values()[1:]`); `sam` models `random.sample`. -/
def get_random_words (sam : List (List String) → Nat → List (List String))
    (all_data : List (List String)) (count : Nat) : List WordRecord :=
  let c := if all_data.length < count then all_data.length else count
  (sam all_data c).filterMap row_to_word?

/-- A concrete deterministic sampler satisfying `SamplerSpec`, used to
instantiate sampling theorems. -/
def take_sampler : List (List String) → Nat → List (List String) := fun l n => l.take n

/-- The two-character blank-line boundary `"\n\n"` searched for by the chunk
splitter of `SlackNotifier._format_mixed_content_message`. -/
def nlnl : List Char := ['\n', '\n']

/-- Does `sub` occur in `text` starting exactly at index `i`? -/
def matches_at (text sub : List Char) (i : Nat) : Bool :=
  decide ((text.drop i).take sub.length = sub)

/-- Downward search for the highest match position, from `start` to `0`. -/
def rfind_aux (text sub : List Char) : Nat → Option Nat
  | 0 => if matches_at text sub 0 then some 0 else none
  | i + 1 => if matches_at text sub (i + 1) then some (i + 1) else rfind_aux text sub i

/-- Python `text.rfind(sub, 0, stop)`: the highest index at which `sub` occurs
entirely within `text[0:stop]`, or `none` (Python `-1`). -/
def py_rfind (text sub : List Char) (stop : Nat) : Option Nat :=
  let ub := min stop text.length
  if sub.length ≤ ub then rfind_aux text sub (ub - sub.length) else none

/-- One iteration of the chunking loop (`src/main.py` 584-590):
`split_pos = full_text.rfind("\n\n", 0, max_size)`, defaulting to `max_size`
when absent; emits `full_text[:split_pos]` and keeps `full_text[split_pos:]`. -/
def chunk_step (text : List Char) (max_size : Nat) : List Char × List Char :=
  match py_rfind text nlnl max_size with
  | some p => (text.take p, text.drop p)
  | none => (text.take max_size, text.drop max_size)

/-- The chunking `while` loop of `SlackNotifier._format_mixed_content_message`
(`src/main.py` 583-591), with explicit fuel standing for the number of loop
iterations allowed: `none` means the loop has not finished within `fuel`
iterations. The source hardcodes `max_size = 2500`; the spec abstracts it as a
parameter. -/
def chunks (max_size : Nat) : Nat → List Char → Option (List (List Char))
  | 0, text => if text.length ≤ max_size then some [text] else none
  | f + 1, text =>
    if text.length ≤ max_size then some [text]
    else
      match chunks max_size f (chunk_step text max_size).2 with
      | some r => some ((chunk_step text max_size).1 :: r)
      | none => none

/-- Does the text contain a blank-line boundary `"\n\n"` anywhere? -/
def has_nlnl : List Char → Bool
  | a :: b :: rest => (a == '\n' && b == '\n') || has_nlnl (b :: rest)
  | _ => false

/-- A text on which the chunking loop makes no progress: its only blank-line
boundary is at position 0, and it is longer than the max chunk size 5. -/
def bad_text : List Char := '\n' :: '\n' :: List.replicate 6 'a'

/-- C1: the allocator builds section1 as the `s1`-prefix of the sample (all of
it when the sample is short, so its length is `min s1 k`), builds section2 from
the tail window — `sample[s1:total]` when `total ≥ 30`, `sample[s1:k]`
otherwise — extended by wrap-around from the front when short and truncated to
`s2`, so that section2 has exactly `s2` words whenever `k ≥ s2`. -/
theorem allocate_section_lengths (words : List WordRecord) (total s1 s2 s3 s4 s5 : Nat)
    (hk : 10 ≤ words.length) :
    (allocate words total s1 s2 s3 s4 s5).section1 = words.take s1 ∧
    (allocate words total s1 s2 s3 s4 s5).section1.length = min s1 words.length ∧
    (allocate words total s1 s2 s3 s4 s5).section2 =
      (let tb := if 30 ≤ total then (words.take total).drop s1 else words.drop s1
       (if tb.length < s2 then tb ++ words.take (s2 - tb.length) else tb).take s2) ∧
    (s2 ≤ words.length → (allocate words total s1 s2 s3 s4 s5).section2.length = s2) := by
  refine ⟨rfl, by simp [allocate], rfl, ?_⟩
  intro hs2
  show (let tb := if 30 ≤ total then (words.take total).drop s1 else words.drop s1
        (if tb.length < s2 then tb ++ words.take (s2 - tb.length) else tb).take s2).length = s2
  set tb := if 30 ≤ total then (words.take total).drop s1 else words.drop s1 with htb
  by_cases hlt : tb.length < s2
  · simp only [hlt, if_true, List.length_take, List.length_append]
    omega
  · simp only [hlt, if_false, List.length_take]
    omega

/-- Witness for C1 at a concrete ten-word sample with `s2 = 5 ≤ 10 = k`. -/
theorem allocate_section_lengths_witness :
    (allocate (sampleWords 10) 30 15 5 5 5 10).section1.length = min 15 (sampleWords 10).length ∧
    (allocate (sampleWords 10) 30 15 5 5 5 10).section2.length = 5 :=
  ⟨(allocate_section_lengths (sampleWords 10) 30 15 5 5 5 10 (by decide)).2.1,
   (allocate_section_lengths (sampleWords 10) 30 15 5 5 5 10 (by decide)).2.2.2 (by decide)⟩

/-- C2: exam generation fails with the insufficient-words error reporting
`available = k` and `required = 10` exactly when the sample has fewer than ten
words; with ten or more it proceeds to allocation and succeeds. -/
theorem generate_exam_floor (now1 now2 : String) (words : List WordRecord)
    (total s1 s2 s3 s4 s5 : Nat) :
    (words.length < 10 →
      generate_exam now1 now2 words total s1 s2 s3 s4 s5 =
        .err (insufficient_msg words.length 10)) ∧
    (10 ≤ words.length →
      ∃ out, generate_exam now1 now2 words total s1 s2 s3 s4 s5 = .ok out) := by
  constructor
  · intro h
    simp [generate_exam, h]
  · intro h
    have h10 : ¬ words.length < 10 := by omega
    unfold generate_exam
    rw [if_neg h10]
    exact ⟨_, rfl⟩

/-- Witness for C2: a nine-word sample fails with the error reporting nine
available and ten required; a ten-word sample succeeds. -/
theorem generate_exam_floor_witness :
    generate_exam "t" "t" (sampleWords 9) 30 15 15 5 5 10 =
      .err (insufficient_msg 9 10) ∧
    ∃ out, generate_exam "t" "t" (sampleWords 10) 30 15 15 5 5 10 = .ok out :=
  ⟨(generate_exam_floor "t" "t" (sampleWords 9) 30 15 15 5 5 10).1 (by decide),
   (generate_exam_floor "t" "t" (sampleWords 10) 30 15 15 5 5 10).2 (by decide)⟩

/-- Strings with equal character data are equal. -/
theorem str_data_inj {s t : String} (h : s.data = t.data) : s = t := by
  cases s; cases t; exact congrArg String.mk h

/-- Cancellation of a common prefix and suffix around an embedded fragment. -/
theorem append_middle_cancel {p r a b : String} (h : p ++ (a ++ r) = p ++ (b ++ r)) :
    a = b := by
  have hd := congrArg String.data h
  simp only [String.data_append] at hd
  exact str_data_inj (List.append_cancel_right (List.append_cancel_left hd))

/-- The section-5 block of the exam document is the empty string exactly when
the synonym-filtered list is empty. -/
theorem exam_section5_eq_empty_iff (syn : List WordRecord) :
    exam_section5 syn = "" ↔ syn = [] := by
  cases syn with
  | nil => simp [exam_section5]
  | cons w t =>
    apply iff_of_false
    · intro habs
      unfold exam_section5 at habs
      rw [if_neg (by simp)] at habs
      have hlen := congrArg String.length habs
      simp only [String.length_append] at hlen
      have hpos : 0 < String.length "\n---\n\n## Section 5: 동의어 선택 (" := by decide
      have hz : String.length "" = 0 := rfl
      omega
    · simp

/-- C3 counterexample: with `s5 = 0` and a sample whose words all carry
synonyms, `synonymFiltered` is empty and Section 5 of the exam document is
omitted (the rendered block is the empty string) even though the pool does
contain synonym-bearing entries — refuting the claimed "exactly when". -/
theorem c3_counterexample :
    (allocate (sampleWordsSyn 10) 30 15 15 5 5 0).synonymFiltered = [] ∧
    exam_section5 (allocate (sampleWordsSyn 10) 30 15 15 5 5 0).synonymFiltered = "" ∧
    ((allocate (sampleWordsSyn 10) 30 15 15 5 5 0).section1 ++
        (allocate (sampleWordsSyn 10) 30 15 15 5 5 0).section2).filter
      (fun w => !w.synonyms.isEmpty) ≠ [] := by
  refine ⟨by decide, by decide, by decide⟩

/-- C3 amended: `synonymFiltered` is the synonym-bearing subsequence of
`pool = section1 ++ section2`, in pool order, truncated to at most `s5`
entries; Section 5 of the exam document is omitted (empty block) exactly when
`synonymFiltered` is empty; and whenever `s5 ≥ 1` that omission happens
exactly when the pool has no synonym-bearing entries (with `s5 = 0` the
section is omitted even for synonym-bearing pools). -/
theorem synonym_filter_spec (words : List WordRecord) (total s1 s2 s3 s4 s5 : Nat) :
    (allocate words total s1 s2 s3 s4 s5).synonymFiltered =
      (((allocate words total s1 s2 s3 s4 s5).section1 ++
          (allocate words total s1 s2 s3 s4 s5).section2).filter
        (fun w => !w.synonyms.isEmpty)).take s5 ∧
    List.Sublist (allocate words total s1 s2 s3 s4 s5).synonymFiltered
      ((allocate words total s1 s2 s3 s4 s5).section1 ++
        (allocate words total s1 s2 s3 s4 s5).section2) ∧
    (allocate words total s1 s2 s3 s4 s5).synonymFiltered.length ≤ s5 ∧
    (exam_section5 (allocate words total s1 s2 s3 s4 s5).synonymFiltered = "" ↔
      (allocate words total s1 s2 s3 s4 s5).synonymFiltered = []) ∧
    (1 ≤ s5 →
      ((allocate words total s1 s2 s3 s4 s5).synonymFiltered = [] ↔
        ((allocate words total s1 s2 s3 s4 s5).section1 ++
            (allocate words total s1 s2 s3 s4 s5).section2).filter
          (fun w => !w.synonyms.isEmpty) = [])) := by
  refine ⟨rfl, ?_, ?_, exam_section5_eq_empty_iff _, ?_⟩
  · exact (List.take_sublist _ _).trans (List.filter_sublist _)
  · show ((((allocate words total s1 s2 s3 s4 s5).section1 ++
        (allocate words total s1 s2 s3 s4 s5).section2).filter
          (fun w => !w.synonyms.isEmpty)).take s5).length ≤ s5
    rw [List.length_take]
    exact Nat.min_le_left _ _
  · intro h5
    show (((allocate words total s1 s2 s3 s4 s5).section1 ++
        (allocate words total s1 s2 s3 s4 s5).section2).filter
          (fun w => !w.synonyms.isEmpty)).take s5 = [] ↔ _
    cases hf : ((allocate words total s1 s2 s3 s4 s5).section1 ++
        (allocate words total s1 s2 s3 s4 s5).section2).filter
          (fun w => !w.synonyms.isEmpty) with
    | nil => simp
    | cons x xs =>
      cases s5 with
      | zero => omega
      | succ n => simp

/-- Witness for C3 amended at a concrete input with `s5 = 10 ≥ 1`. -/
theorem synonym_filter_spec_witness :
    ((allocate (sampleWordsSyn 10) 30 15 15 5 5 10).synonymFiltered = [] ↔
      ((allocate (sampleWordsSyn 10) 30 15 15 5 5 10).section1 ++
          (allocate (sampleWordsSyn 10) 30 15 15 5 5 10).section2).filter
        (fun w => !w.synonyms.isEmpty) = []) :=
  (synonym_filter_spec (sampleWordsSyn 10) 30 15 15 5 5 10).2.2.2.2 (by decide)

/-- C4 counterexample: on a ten-word sample with the default targets, the
generation result advertises `section1_count = 15` although the effective
section-1 length is 10 (truncated by shortage), and the title-block total is
30 — not the claimed `s1+s2+s3+s4+len(synonymFiltered) = 40`. -/
theorem c4_counterexample :
    generate_exam "t" "t" (sampleWords 10) 30 15 15 5 5 10 = .ok c4Out ∧
    c4Out.section1_count = 15 ∧
    (allocate (sampleWords 10) 30 15 15 5 5 10).section1.length = 10 ∧
    ex_title_count (allocate (sampleWords 10) 30 15 15 5 5 10).section1
      (allocate (sampleWords 10) 30 15 15 5 5 10).section2
      (allocate (sampleWords 10) 30 15 15 5 5 10).synonymFiltered = 30 ∧
    15 + 15 + 5 + 5 +
      (allocate (sampleWords 10) 30 15 15 5 5 10).synonymFiltered.length = 40 := by
  refine ⟨rfl, rfl, by decide, by decide, by decide⟩

/-- C4 amended: the generation result advertises the configured targets for
sections 1–4 regardless of shortage, the actual post-filter count for
section 5, and a `total_questions` field of `s1+s2+s3+s4+len(synonymFiltered)`
(uncapped); the exam document's title block advertises
`len(section1)+len(section2)+5+5+len(synonymFiltered)` questions. -/
theorem generate_exam_advertised (now1 now2 : String) (words : List WordRecord)
    (total s1 s2 s3 s4 s5 : Nat) (out : ExamOutput)
    (h : generate_exam now1 now2 words total s1 s2 s3 s4 s5 = .ok out) :
    out.section1_count = s1 ∧ out.section2_count = s2 ∧ out.section3_count = s3 ∧
    out.section4_count = s4 ∧
    out.section5_count = (allocate words total s1 s2 s3 s4 s5).synonymFiltered.length ∧
    out.total_questions = s1 + s2 + s3 + s4 + out.section5_count ∧
    out.examContent =
      exam_head ++ (now1 ++ (exam_total_label ++
        (toString (ex_title_count (allocate words total s1 s2 s3 s4 s5).section1
            (allocate words total s1 s2 s3 s4 s5).section2
            (allocate words total s1 s2 s3 s4 s5).synonymFiltered) ++
          exam_sections (allocate words total s1 s2 s3 s4 s5).section1
            (allocate words total s1 s2 s3 s4 s5).section2
            (allocate words total s1 s2 s3 s4 s5).composition
            (allocate words total s1 s2 s3 s4 s5).context
            (allocate words total s1 s2 s3 s4 s5).synonymFiltered))) ∧
    ex_title_count (allocate words total s1 s2 s3 s4 s5).section1
        (allocate words total s1 s2 s3 s4 s5).section2
        (allocate words total s1 s2 s3 s4 s5).synonymFiltered =
      (allocate words total s1 s2 s3 s4 s5).section1.length +
        (allocate words total s1 s2 s3 s4 s5).section2.length + 5 + 5 +
        (allocate words total s1 s2 s3 s4 s5).synonymFiltered.length := by
  unfold generate_exam at h
  by_cases hlt : words.length < 10
  · rw [if_pos hlt] at h
    exact GenResult.noConfusion h
  · rw [if_neg hlt] at h
    injection h with h
    subst h
    exact ⟨rfl, rfl, rfl, rfl, rfl, rfl, rfl, rfl⟩

/-- Witness for C4 amended at the concrete ten-word sample. -/
theorem generate_exam_advertised_witness :
    c4Out.section1_count = 15 ∧
    c4Out.section5_count =
      (allocate (sampleWords 10) 30 15 15 5 5 10).synonymFiltered.length ∧
    c4Out.total_questions = 15 + 15 + 5 + 5 + c4Out.section5_count := by
  have h := generate_exam_advertised "t" "t" (sampleWords 10) 30 15 15 5 5 10 c4Out rfl
  exact ⟨h.1, h.2.2.2.2.1, h.2.2.2.2.2.1⟩

/-- C5 counterexample: rendering the same (empty) allocation at two different
formatted timestamps yields different exam documents — re-rendering is not
byte-identical, because each render call reads the clock itself. -/
theorem c5_counterexample :
    create_exam_content "A" [] [] [] [] [] ≠ create_exam_content "B" [] [] [] [] [] := by
  intro h
  have hab : ("A" : String) = "B" := append_middle_cancel h
  exact absurd hab (by decide)

/-- C5 amended: each of the two documents is rendered from its own clock read;
rendering is a pure function of the allocation and that formatted timestamp,
so two renders of the same allocation are byte-identical exactly when the
formatted timestamps agree (and differ whenever the timestamps differ). -/
theorem render_timestamp_iff (now now' : String) (s1w s2w cw xw syn : List WordRecord) :
    (create_exam_content now s1w s2w cw xw syn =
        create_exam_content now' s1w s2w cw xw syn ↔ now = now') ∧
    (create_answer_content now s1w s2w cw xw syn =
        create_answer_content now' s1w s2w cw xw syn ↔ now = now') := by
  constructor
  · constructor
    · intro h
      exact append_middle_cancel h
    · intro h
      rw [h]
  · constructor
    · intro h
      exact append_middle_cancel h
    · intro h
      rw [h]

/-- If a text has a blank-line boundary somewhere in its tail, it has one. -/
theorem has_nlnl_cons (a : Char) (t : List Char) (h : has_nlnl t = true) :
    has_nlnl (a :: t) = true := by
  cases t with
  | nil => simp [has_nlnl] at h
  | cons b t' =>
    show ((a == '\n' && b == '\n') || has_nlnl (b :: t')) = true
    rw [h]
    simp

/-- A match of `"\n\n"` at any position implies the boundary test is true. -/
theorem matches_at_nlnl_has (text : List Char) :
    ∀ i, matches_at text nlnl i = true → has_nlnl text = true := by
  induction text with
  | nil =>
    intro i h
    unfold matches_at at h
    simp [nlnl] at h
  | cons a t ih =>
    intro i h
    cases i with
    | zero =>
      replace h := of_decide_eq_true h
      simp only [List.drop_zero] at h
      cases t with
      | nil => simp [nlnl] at h
      | cons b t' =>
        have h2 : a = '\n' ∧ b = '\n' := by
          have h3 : [a, b] = nlnl := h
          simpa [nlnl] using h3
        obtain ⟨ha, hb⟩ := h2
        subst ha; subst hb
        simp [has_nlnl]
    | succ i' =>
      have h' : matches_at t nlnl i' = true := by
        unfold matches_at at h ⊢
        simpa using h
      exact has_nlnl_cons a t (ih i' h')

/-- The boundary test is complete: if true, a match exists. -/
theorem has_nlnl_exists (l : List Char) (h : has_nlnl l = true) :
    ∃ i, matches_at l nlnl i = true := by
  induction l with
  | nil => simp [has_nlnl] at h
  | cons a t ih =>
    cases t with
    | nil => simp [has_nlnl] at h
    | cons b t' =>
      have h' : ((a == '\n' && b == '\n') || has_nlnl (b :: t')) = true := h
      rcases Bool.or_eq_true_iff.mp h' with hab | hr
      · obtain ⟨ha, hb⟩ := Bool.and_eq_true_iff.mp hab
        have ha' : a = '\n' := by simpa using ha
        have hb' : b = '\n' := by simpa using hb
        subst ha'; subst hb'
        exact ⟨0, by unfold matches_at; simp [nlnl]⟩
      · obtain ⟨i, hi⟩ := ih hr
        refine ⟨i + 1, ?_⟩
        unfold matches_at at hi ⊢
        simpa using hi

/-- Boundary-freeness is preserved by dropping a prefix. -/
theorem has_nlnl_drop (text : List Char) (k : Nat) (h : has_nlnl text = false) :
    has_nlnl (text.drop k) = false := by
  cases hd : has_nlnl (text.drop k) with
  | false => rfl
  | true =>
    exfalso
    obtain ⟨i, hi⟩ := has_nlnl_exists (text.drop k) hd
    have hshift : matches_at text nlnl (k + i) = true := by
      unfold matches_at at hi ⊢
      rw [← List.drop_drop]
      exact hi
    have := matches_at_nlnl_has text (k + i) hshift
    rw [h] at this
    cases this

/-- A successful downward search yields a position at most the start, where a
match really occurs. -/
theorem rfind_aux_some (text sub : List Char) :
    ∀ start p, rfind_aux text sub start = some p →
      p ≤ start ∧ matches_at text sub p = true := by
  intro start
  induction start with
  | zero =>
    intro p h
    unfold rfind_aux at h
    by_cases hm : matches_at text sub 0
    · rw [if_pos hm] at h
      injection h with h
      subst h
      exact ⟨Nat.le_refl 0, hm⟩
    · rw [if_neg hm] at h
      cases h
  | succ i ih =>
    intro p h
    unfold rfind_aux at h
    by_cases hm : matches_at text sub (i + 1)
    · rw [if_pos hm] at h
      injection h with h
      subst h
      exact ⟨Nat.le_refl _, hm⟩
    · rw [if_neg hm] at h
      obtain ⟨h1, h2⟩ := ih p h
      exact ⟨Nat.le_succ_of_le h1, h2⟩

/-- A successful `rfind` stays within the window and marks a real match. -/
theorem py_rfind_some (text sub : List Char) (stop p : Nat)
    (h : py_rfind text sub stop = some p) :
    p + sub.length ≤ min stop text.length ∧ matches_at text sub p = true := by
  simp only [py_rfind] at h
  by_cases hle : sub.length ≤ min stop text.length
  · rw [if_pos hle] at h
    obtain ⟨h1, h2⟩ := rfind_aux_some text sub _ p h
    exact ⟨by omega, h2⟩
  · rw [if_neg hle] at h
    cases h

/-- On boundary-free text, `rfind` for `"\n\n"` finds nothing. -/
theorem py_rfind_none_of_no_nlnl (text : List Char) (stop : Nat)
    (h : has_nlnl text = false) : py_rfind text nlnl stop = none := by
  cases hr : py_rfind text nlnl stop with
  | none => rfl
  | some p =>
    exfalso
    have hm := (py_rfind_some text nlnl stop p hr).2
    have := matches_at_nlnl_has text p hm
    rw [h] at this
    cases this

/-- The two pieces of one loop iteration reassemble the text exactly. -/
theorem chunk_step_append (text : List Char) (ms : Nat) :
    (chunk_step text ms).1 ++ (chunk_step text ms).2 = text := by
  unfold chunk_step
  cases py_rfind text nlnl ms with
  | some p => simp [List.take_append_drop]
  | none => simp [List.take_append_drop]

/-- The emitted piece of one loop iteration is within the size bound. -/
theorem chunk_step_fst_le (text : List Char) (ms : Nat) :
    (chunk_step text ms).1.length ≤ ms := by
  unfold chunk_step
  cases hr : py_rfind text nlnl ms with
  | some p =>
    have hb := (py_rfind_some text nlnl ms p hr).1
    have hp : p ≤ ms := by
      have h2 : nlnl.length = 2 := rfl
      omega
    simp only [List.length_take]
    omega
  | none =>
    simp only [List.length_take]
    omega

/-- On boundary-free text the loop iteration is a hard split at the bound. -/
theorem chunk_step_no_nlnl (text : List Char) (ms : Nat) (h : has_nlnl text = false) :
    chunk_step text ms = (text.take ms, text.drop ms) := by
  unfold chunk_step
  rw [py_rfind_none_of_no_nlnl text ms h]

/-- Whenever the chunking loop finishes, its output is lossless and bounded. -/
theorem chunks_sound (max_size : Nat) :
    ∀ fuel text r, chunks max_size fuel text = some r →
      r.flatten = text ∧ ∀ c ∈ r, c.length ≤ max_size := by
  intro fuel
  induction fuel with
  | zero =>
    intro text r h
    unfold chunks at h
    by_cases hle : text.length ≤ max_size
    · rw [if_pos hle] at h
      injection h with h
      subst h
      refine ⟨by simp, ?_⟩
      intro c hc
      rw [List.mem_singleton] at hc
      subst hc
      exact hle
    · rw [if_neg hle] at h
      cases h
  | succ f ih =>
    intro text r h
    unfold chunks at h
    by_cases hle : text.length ≤ max_size
    · rw [if_pos hle] at h
      injection h with h
      subst h
      refine ⟨by simp, ?_⟩
      intro c hc
      rw [List.mem_singleton] at hc
      subst hc
      exact hle
    · rw [if_neg hle] at h
      cases hrec : chunks max_size f (chunk_step text max_size).2 with
      | none =>
        rw [hrec] at h
        cases h
      | some r' =>
        rw [hrec] at h
        injection h with h
        subst h
        obtain ⟨hflat, hbnd⟩ := ih _ _ hrec
        constructor
        · rw [List.flatten_cons, hflat]
          exact chunk_step_append text max_size
        · intro c hc
          rcases List.mem_cons.mp hc with rfl | hc'
          · exact chunk_step_fst_le text max_size
          · exact hbnd c hc'

/-- On boundary-free text of length at most the fuel, the loop finishes. -/
theorem chunks_terminates_of_no_nlnl (max_size : Nat) (hms : 1 ≤ max_size) :
    ∀ fuel text, text.length ≤ fuel → has_nlnl text = false →
      ∃ r, chunks max_size fuel text = some r := by
  intro fuel
  induction fuel with
  | zero =>
    intro text hlen _
    have hle : text.length ≤ max_size := by omega
    exact ⟨[text], by unfold chunks; rw [if_pos hle]⟩
  | succ f ih =>
    intro text hlen hno
    by_cases hle : text.length ≤ max_size
    · exact ⟨[text], by unfold chunks; rw [if_pos hle]⟩
    · have hstep := chunk_step_no_nlnl text max_size hno
      have hrest_len : (text.drop max_size).length ≤ f := by
        rw [List.length_drop]
        omega
      have hrest_no : has_nlnl (text.drop max_size) = false := has_nlnl_drop text max_size hno
      obtain ⟨r, hr⟩ := ih (text.drop max_size) hrest_len hrest_no
      refine ⟨text.take max_size :: r, ?_⟩
      unfold chunks
      rw [if_neg hle, hstep]
      show (match chunks max_size f (text.drop max_size) with
        | some r => some (text.take max_size :: r)
        | none => none) = _
      rw [hr]

/-- The bad input makes the loop spin: its length exceeds the bound and the
split position found is 0, so the remainder never shrinks. -/
theorem chunks_bad_none : ∀ fuel, chunks 5 fuel bad_text = none := by
  intro fuel
  induction fuel with
  | zero =>
    unfold chunks
    rw [if_neg (by decide)]
  | succ f ih =>
    unfold chunks
    rw [if_neg (by decide)]
    have hstep : chunk_step bad_text 5 = ([], bad_text) := by decide
    rw [hstep]
    show (match chunks 5 f bad_text with
      | some r => some ([] :: r)
      | none => none) = none
    rw [ih]

/-- C6 counterexample: on the text whose only blank-line boundary is at
position 0, the loop has not produced a result even after one iteration per
character (the fuel the claim's own progress invariant would guarantee), and
one iteration emits an empty chunk while leaving the remainder unchanged. -/
theorem c6_counterexample :
    chunks 5 (bad_text.length + 1) bad_text = none ∧
    chunk_step bad_text 5 = ([], bad_text) := by
  exact ⟨chunks_bad_none (bad_text.length + 1), by decide⟩

/-- C6 amended: whenever the loop returns, each chunk has length at most
`max_size` and the chunks concatenate back to the text exactly; a text no
longer than `max_size` returns as a single unchanged chunk; and on text with
no blank-line boundary the loop provably finishes (hard splits only). For
text with a boundary followed by an overlong boundary-free stretch, the loop
never returns (see the counterexample). -/
theorem chunk_roundtrip_amended (text : List Char) (max_size fuel : Nat) :
    (∀ r, chunks max_size fuel text = some r →
      r.flatten = text ∧ ∀ c ∈ r, c.length ≤ max_size) ∧
    (text.length ≤ max_size → chunks max_size fuel text = some [text]) ∧
    (1 ≤ max_size → has_nlnl text = false → text.length ≤ fuel →
      ∃ r, chunks max_size fuel text = some r) := by
  refine ⟨fun r h => chunks_sound max_size fuel text r h, ?_, ?_⟩
  · intro hle
    cases fuel with
    | zero => unfold chunks; rw [if_pos hle]
    | succ f => unfold chunks; rw [if_pos hle]
  · intro h1 h2 h3
    exact chunks_terminates_of_no_nlnl max_size h1 fuel text h3 h2

/-- Witness for C6 amended: a concrete boundary-free text is split into
bounded chunks that concatenate back, and a short text returns unchanged. -/
theorem chunk_roundtrip_amended_witness :
    (List.flatten [['a', 'a'], ['a']] = ['a', 'a', 'a'] ∧
      ∀ c ∈ [['a', 'a'], ['a']], c.length ≤ 2) ∧
    chunks 2 0 ['b'] = some [['b']] ∧
    (∃ r, chunks 2 5 ['a', 'a', 'a'] = some r) := by
  refine ⟨(chunk_roundtrip_amended ['a', 'a', 'a'] 2 5).1 [['a', 'a'], ['a']] (by decide),
    (chunk_roundtrip_amended ['b'] 2 0).2.1 (by decide),
    (chunk_roundtrip_amended ['a', 'a', 'a'] 2 5).2.2 (by decide) (by decide) (by decide)⟩

/-- C7: the chunking loop does not terminate on every input, contrary to the
claim — on `bad_text` one iteration emits an empty chunk and leaves the
remainder unchanged (no strict decrease), so no amount of fuel finishes the
loop; and on empty input the loop emits a single trailing empty chunk. -/
theorem chunk_loop_no_progress :
    chunk_step bad_text 5 = ([], bad_text) ∧
    (∀ fuel, chunks 5 fuel bad_text = none) ∧
    chunks 5 0 [] = some [[]] := by
  exact ⟨by decide, chunks_bad_none, rfl⟩

/-- C8: appending fails (the sheet is unchanged and the result is false)
whenever the case-insensitive duplicate scan over the stored word column finds
`record.word` — including under a different letter case — and otherwise the
record's row is appended at the end; the duplicate check is true exactly when
some stored word matches case-insensitively. -/
theorem add_to_sheet_spec (info : WordInfo) (rows : List (String × String × String))
    (ins : Except String Unit) (cells : List String) :
    (check_duplicate info.word (.ok cells) = true ↔
      ∃ c ∈ cells, lower_str c = lower_str info.word) ∧
    (check_duplicate info.word (.ok cells) = true →
      add_to_sheet info (.ok cells) rows ins = (rows, false)) ∧
    (check_duplicate info.word (.ok cells) = false →
      add_to_sheet info (.ok cells) rows (.ok ()) =
        (rows ++ [(info.word, info.korean_meaning, join_synonyms info.synonyms)], true)) := by
  refine ⟨?_, ?_, ?_⟩
  · show (cells.any fun c => lower_str c == lower_str info.word) = true ↔ _
    rw [List.any_eq_true]
    constructor
    · rintro ⟨c, hc, he⟩
      exact ⟨c, hc, by simpa using he⟩
    · rintro ⟨c, hc, he⟩
      exact ⟨c, hc, by simpa using he⟩
  · intro h
    unfold add_to_sheet
    rw [if_pos h]
  · intro h
    unfold add_to_sheet
    rw [if_neg (by simp [h])]

/-- Witness for C8: the word stored as "hello" blocks appending "HELLO"
(different letter case), while a fresh word is appended at the end. -/
theorem add_to_sheet_spec_witness :
    add_to_sheet ⟨"HELLO", "인사", [], "", ""⟩ (.ok ["hello"]) [("hello", "인사", "")]
        (.ok ()) = ([("hello", "인사", "")], false) ∧
    add_to_sheet ⟨"new", "뜻", [], "", ""⟩ (.ok ["hello"]) [("hello", "인사", "")]
        (.ok ()) = ([("hello", "인사", ""), ("new", "뜻", join_synonyms [])], true) :=
  ⟨(add_to_sheet_spec ⟨"HELLO", "인사", [], "", ""⟩ [("hello", "인사", "")] (.ok ())
      ["hello"]).2.1 (by decide),
   (add_to_sheet_spec ⟨"new", "뜻", [], "", ""⟩ [("hello", "인사", "")] (.ok ())
      ["hello"]).2.2 (by decide)⟩

/-- Rows with at least three cells convert to a record. -/
theorem row_to_word?_eq (r : List String) (h : ∃ w m s rest, r = w :: m :: s :: rest) :
    row_to_word? r = some (row_to_word r) := by
  obtain ⟨w, m, s, rest, rfl⟩ := h
  rfl

/-- The converted record keeps the row's first cell as its word. -/
theorem row_to_word_head (r : List String) (h : ∃ w m s rest, r = w :: m :: s :: rest) :
    (row_to_word r).word = r.headD "" := by
  obtain ⟨w, m, s, rest, rfl⟩ := h
  rfl

/-- A `filterMap` whose function never skips degenerates to `map`. -/
theorem filterMap_all_some {α β : Type} (g : α → Option β) (f : α → β) :
    ∀ l : List α, (∀ x ∈ l, g x = some (f x)) → l.filterMap g = l.map f := by
  intro l
  induction l with
  | nil => intro _; rfl
  | cons a t ih =>
    intro h
    rw [List.filterMap_cons, h a (List.mem_cons_self a t), List.map_cons,
      ih (fun x hx => h x (List.mem_cons_of_mem a hx))]

/-- C9: for well-formed rows (at least three cells each, as the persistence
interface guarantees) and any sampler meeting the `random.sample` contract,
`get_random_words` returns exactly `min count bankSize` records; the records
are pairwise distinct whenever the bank's word column is duplicate-free; and
an empty bank yields an empty list rather than an error. -/
theorem get_random_words_spec (sam : List (List String) → Nat → List (List String))
    (all_data : List (List String)) (count : Nat)
    (hsam : SamplerSpec sam)
    (hwf : ∀ r ∈ all_data, ∃ w m s rest, r = w :: m :: s :: rest) :
    (get_random_words sam all_data count).length = min count all_data.length ∧
    (all_data.Pairwise (fun a b => a.headD "" ≠ b.headD "") →
      (get_random_words sam all_data count).Nodup) ∧
    (all_data = [] → get_random_words sam all_data count = []) := by
  have hc : (if all_data.length < count then all_data.length else count) =
      min count all_data.length := by
    rw [Nat.min_def]
    split <;> split <;> omega
  have hcle : min count all_data.length ≤ all_data.length := Nat.min_le_right _ _
  obtain ⟨hlen, hsub⟩ := hsam all_data (min count all_data.length) hcle
  have hsel_wf : ∀ r ∈ sam all_data (min count all_data.length),
      ∃ w m s rest, r = w :: m :: s :: rest :=
    fun r hr => hwf r (List.Subperm.subset hsub hr)
  have hmap : (sam all_data (min count all_data.length)).filterMap row_to_word? =
      (sam all_data (min count all_data.length)).map row_to_word :=
    filterMap_all_some row_to_word? row_to_word _ (fun x hx => row_to_word?_eq x (hsel_wf x hx))
  unfold get_random_words
  rw [hc, hmap]
  refine ⟨by rw [List.length_map]; exact hlen, ?_, ?_⟩
  · intro hpw
    obtain ⟨u, hperm, husub⟩ := hsub
    have hpw_u : u.Pairwise (fun a b => a.headD "" ≠ b.headD "") :=
      List.Pairwise.sublist husub hpw
    have hpw_sel : (sam all_data (min count all_data.length)).Pairwise
        (fun a b => a.headD "" ≠ b.headD "") :=
      (List.Perm.pairwise_iff (fun hxy hyx => hxy hyx.symm) hperm).mp hpw_u
    have hne : ((sam all_data (min count all_data.length)).map row_to_word).Pairwise
        (fun a b => a ≠ b) := by
      rw [List.pairwise_map]
      refine List.Pairwise.imp_of_mem ?_ hpw_sel
      intro a b ha hb hhd heq
      apply hhd
      rw [← row_to_word_head a (hsel_wf a ha), ← row_to_word_head b (hsel_wf b hb), heq]
    exact hne
  · intro hnil
    subst hnil
    have h0 : (sam [] (min count ([] : List (List String)).length)).length = 0 := by
      simpa using hlen
    rw [List.length_eq_zero] at h0
    rw [h0]
    rfl

/-- The deterministic prefix sampler meets the `random.sample` contract. -/
theorem take_sampler_spec : SamplerSpec take_sampler := by
  intro l n h
  refine ⟨?_, List.Sublist.subperm (List.take_sublist n l)⟩
  show (l.take n).length = n
  rw [List.length_take]
  omega

/-- Witness for C9 at a concrete three-row bank with the prefix sampler. -/
theorem get_random_words_spec_witness :
    (get_random_words take_sampler [["a", "뜻", ""], ["b", "뜻", ""], ["c", "뜻", ""]] 2).length =
      min 2 3 ∧
    (get_random_words take_sampler [["a", "뜻", ""], ["b", "뜻", ""], ["c", "뜻", ""]] 2).Nodup := by
  have h := get_random_words_spec take_sampler
    [["a", "뜻", ""], ["b", "뜻", ""], ["c", "뜻", ""]] 2 take_sampler_spec
    (by
      intro r hr
      simp only [List.mem_cons, List.not_mem_nil, or_false] at hr
      rcases hr with rfl | rfl | rfl <;> exact ⟨_, _, _, _, rfl⟩)
  exact ⟨h.1, h.2.1 (by decide)⟩

/-- C10 counterexample: a failed duplicate scan returns the same value as a
scan over a bank not containing the word, and a failed append returns the same
value as a duplicate-rejected append — so the failure paths are not
discriminated from the benign outcomes. -/
theorem c10_counterexample :
    check_duplicate "hello" (Except.error "API failure") =
      check_duplicate "hello" (Except.ok []) ∧
    check_duplicate "hello" (Except.error "API failure") = false ∧
    (add_to_sheet ⟨"hello", "인사", [], "", ""⟩ (.ok ["hello"]) [("hello", "인사", "")]
        (.ok ())).2 =
      (add_to_sheet ⟨"hello", "인사", [], "", ""⟩ (.ok []) [("hello", "인사", "")]
        (.error "insert failed")).2 := by
  refine ⟨rfl, rfl, by decide⟩

/-- C10 amended: internal failures are swallowed into the boolean `false`:
a failed column read makes `check_duplicate` report "not present", a failed
insert makes `add_to_sheet` report `false` with the sheet unchanged — the same
result as a duplicate rejection — and `format_vocab_response` renders every
`save_success = false` as the fixed "already saved" message. -/
theorem error_paths_yield_false (w e e2 : String) (info : WordInfo)
    (rows : List (String × String × String)) (fetch : Except String (List String))
    (ins : Except String Unit) :
    check_duplicate w (Except.error e) = false ∧
    add_to_sheet info fetch rows (Except.error e2) = (rows, false) ∧
    (check_duplicate info.word fetch = true →
      add_to_sheet info fetch rows ins = (rows, false)) ∧
    (∃ pre, format_vocab_response info false = pre ++ already_saved_msg) := by
  refine ⟨rfl, ?_, ?_, ⟨_, rfl⟩⟩
  · unfold add_to_sheet
    by_cases h : check_duplicate info.word fetch
    · rw [if_pos h]
    · rw [if_neg h]
  · intro h
    unfold add_to_sheet
    rw [if_pos h]

/-- Witness for C10 amended: a duplicate append and a failed-insert append
produce the identical result on a concrete store. -/
theorem error_paths_yield_false_witness :
    add_to_sheet ⟨"dup", "뜻", [], "", ""⟩ (.ok ["dup"]) [] (.error "boom") = ([], false) ∧
    add_to_sheet ⟨"dup", "뜻", [], "", ""⟩ (.ok ["dup"]) [] (.ok ()) = ([], false) :=
  ⟨(error_paths_yield_false "w" "e" "boom" ⟨"dup", "뜻", [], "", ""⟩ [] (.ok ["dup"])
      (.ok ())).2.1,
   (error_paths_yield_false "w" "e" "e2" ⟨"dup", "뜻", [], "", ""⟩ [] (.ok ["dup"])
      (.ok ())).2.2.1 (by decide)⟩
